import Mathlib

/-!
Verification of the token-validation and permission-resolution engine of the
`go-cdk-authorizer` repository, as a shallow embedding in Lean 4.

Source files embedded here:
* `src/authorizer/lambda/main.go` (package `authorize`): `getToken`, `Handler`,
  `getUserPermissions`, `getDenyResponse`, `getSuccessResponse`.
* `src/authorizer/authCache.go`: `AuthCache.TryGet`, `AuthCache.TryPut` and the
  process-wide ephemeral `cacheMap`.

Modelling conventions:
* Go machine state that the functions read or write (the ephemeral `cacheMap`
  and the DynamoDB table) is passed as an explicit `CacheState` value and
  returned updated.
* `time.Time` instants are modelled as `Nat` milliseconds (the unit of the
  `1000 * 900 * time.Millisecond` expiration written by the resolver);
  `t.After(now)` is `now < t`.
* Go functions returning `(value, error)` are modelled with `Except String`;
  Go run-time panics (fatal aborts) are modelled by the `GoResult.crash`
  constructor, so that totality of the Lean functions does not hide partiality
  of the Go code.
* External collaborators (the JWT parser `jwt.Parse`, the upstream permissions
  API, DynamoDB availability) are inputs: the handler takes the parse outcome
  and the resolution outcome as oracles, and the cache functions take the
  store's success or failure as an `Option String` error parameter.
-/

/-! ## Generic helpers (Go string primitives used by the source) -/

/-- Outcome of running a piece of Go code: a normal value, a returned Go
`error` (its `Error()` text), or a run-time panic. -/
inductive GoResult (α : Type) where
  | ok : α → GoResult α
  | err : String → GoResult α
  | crash : String → GoResult α
deriving DecidableEq

/-- Does `pat` occur as a contiguous substring of the character list? -/
def charsContain (pat : List Char) : List Char → Bool
  | [] => pat.isEmpty
  | c :: rest => pat.isPrefixOf (c :: rest) || charsContain pat rest

/-- Go `strings.Contains(s, pat)` (note the argument order: pattern first
here). Also the semantics of the unanchored Go regexp `"Bearer (.*)"`, whose
`(.*)` part always matches the empty string, so the regexp matches exactly
when `"Bearer "` occurs as a substring. -/
def strContainsSub (pat s : String) : Bool :=
  charsContain pat.data s.data

/-- Accumulator-based worker for `goFields`: splits at whitespace, dropping
empty fields, like Go `strings.Fields`. -/
def goFieldsChars (cur : List Char) : List Char → List String
  | [] => if cur.isEmpty then [] else [String.mk cur.reverse]
  | c :: rest =>
    if c.isWhitespace then
      if cur.isEmpty then goFieldsChars [] rest
      else String.mk cur.reverse :: goFieldsChars [] rest
    else goFieldsChars (c :: cur) rest

/-- Go `strings.Fields`: the maximal runs of non-whitespace characters. -/
def goFields (s : String) : List String :=
  goFieldsChars [] s.data

/-- Accumulator-based worker for `goSplitSpace`: splits at every single space
character, keeping empty fields, like Go `strings.Split(s, " ")`. -/
def goSplitChars (cur : List Char) : List Char → List String
  | [] => [String.mk cur.reverse]
  | c :: rest =>
    if c = ' ' then String.mk cur.reverse :: goSplitChars [] rest
    else goSplitChars (c :: cur) rest

/-- Go `strings.Split(s, " ")`: split at each space, empties kept. -/
def goSplitSpace (s : String) : List String :=
  goSplitChars [] s.data

/-- Association-list lookup, first binding wins (map read). -/
def assocFind {α : Type} (m : List (String × α)) (k : String) : Option α :=
  match m.find? (fun p => p.1 == k) with
  | some p => some p.2
  | none => none

/-- Association-list update (map write): the new binding shadows old ones. -/
def assocPut {α : Type} (m : List (String × α)) (k : String) (v : α) :
    List (String × α) :=
  (k, v) :: m

/-! ## Data model (`events` package structures, as used by the source) -/

/-- `events.APIGatewayCustomAuthorizerRequest`. The Go field `Type` is named
`EventType` here because `Type` is reserved in Lean. -/
structure AuthorizerRequest where
  EventType : String
  AuthorizationToken : String
  MethodArn : String
deriving DecidableEq

/-- `events.IAMPolicyStatement`. -/
structure IAMPolicyStatement where
  Action : List String
  Effect : String
  Resource : List String
deriving DecidableEq

/-- `events.APIGatewayCustomAuthorizerPolicy`. -/
structure AuthorizerPolicy where
  Version : String
  Statement : List IAMPolicyStatement
deriving DecidableEq

/-- `events.APIGatewayCustomAuthorizerResponse`. The Go context is a
`map[string]interface{}` whose values are all strings in this code base; it is
modelled as an association list in insertion order. -/
structure AuthorizerResponse where
  PrincipalID : String
  PolicyDocument : AuthorizerPolicy
  Context : List (String × String)
deriving DecidableEq

/-- The fields of `AuthTokenConfig` that the request path reads
(`Authorizer.Config`). -/
structure AuthTokenConfig where
  JwksUri : String
  Issuer : String
  ClientId : String
  ClientSecret : String
  TokenAudience : String
  ClientAudience : String
  GrantType : String
deriving DecidableEq

/-! ## Decision builders (`getDenyResponse`, `getSuccessResponse`) -/

/-- `getDenyResponse` from `main.go` lines 352-374. -/
def getDenyResponse (principalId methodArn message : String) :
    AuthorizerResponse :=
  { PrincipalID := principalId
    PolicyDocument :=
      { Version := "2012-10-17"
        Statement :=
          [{ Action := ["execute-api:Invoke"]
             Effect := "Deny"
             Resource := [methodArn] }] }
    Context := [("ErrorMessage", message)] }

/-- `getSuccessResponse` from `main.go` lines 376-395. -/
def getSuccessResponse (principalId methodArn : String)
    (context : List (String × String)) : AuthorizerResponse :=
  { PrincipalID := principalId
    PolicyDocument :=
      { Version := "2012-10-17"
        Statement :=
          [{ Action := ["execute-api:Invoke"]
             Effect := "Allow"
             Resource := [methodArn] }] }
    Context := context }

/-! ## Bearer token extraction (`getToken`) -/

/-- `getToken` from `main.go` lines 155-173.

The regexp check `regexp.MatchString("Bearer (.*)", tokenString)` is
unanchored and `(.*)` may match the empty string, so it succeeds exactly when
`"Bearer "` occurs anywhere as a substring. On success the code returns
`strings.Fields(tokenString)[1]`, which is a run-time panic (index out of
range) when the string has fewer than two whitespace-separated fields. -/
def getToken (event : AuthorizerRequest) : GoResult String :=
  if event.EventType ≠ "TOKEN" then
    .err "expected 'event.Type' parameter to have value 'TOKEN'"
  else if event.AuthorizationToken.length ≤ 0 then
    .err "expected 'event.AuthorizationToken' parameter to not be empty"
  else if ¬ strContainsSub "Bearer " event.AuthorizationToken then
    .err "invalid authorization token - The provided 'Authorization' header does not match 'Bearer .*'"
  else
    match (goFields event.AuthorizationToken).get? 1 with
    | some t => .ok t
    | none => .crash "runtime error: index out of range"

/-! ## Dual-tier permission cache (`authCache.go`) -/

/-- `AuthCacheValue` from `authCache.go`: the payload of both cache tiers.
`Expiration` is a `time.Time`, modelled as milliseconds. -/
structure AuthCacheValue where
  Permissions : List String
  Expiration : Nat
deriving DecidableEq

/-- `AuthCacheValueEntity` from `authCache.go`: the DynamoDB row shape. The
Go `Expiration` field is the instant rendered with the fixed layout
`"2006-01-02T15:04:05.0000000Z"`; that rendering is injective down to the
layout's 100 ns granularity (coarser than this model's milliseconds) and is
inverted by `attributevalue.UnmarshalMap` on read, so the model carries the
instant the string denotes. -/
structure AuthCacheValueEntity where
  PK : String
  SK : String
  Permissions : List String
  Expiration : Nat
deriving DecidableEq

/-- The mutable state the cache functions touch: the process-wide ephemeral
`cacheMap` and the DynamoDB table (rows keyed by `PK`, which the code always
sets equal to `SK`). -/
structure CacheState where
  cacheMap : List (String × AuthCacheValue)
  table : List (String × AuthCacheValueEntity)
deriving DecidableEq

/-- `AuthCache.TryGet` from `authCache.go` lines 34-65.

`now` is the instant of the `time.Now()` call in the ephemeral freshness
check; `ddbReadErr` is `some e` when the `GetItem` call against the store
fails with error text `e` (the store's availability is an external input). -/
def TryGet (st : CacheState) (now : Nat) (authId : String)
    (ddbReadErr : Option String) : Except String (Option AuthCacheValue) :=
  match assocFind st.cacheMap authId with
  | some val =>
    if now < val.Expiration then Except.ok (some val)
    else TryGetDurable st authId ddbReadErr
  | none => TryGetDurable st authId ddbReadErr
where
  /-- The durable-store half of `TryGet`: the strongly consistent `GetItem`
  with `PK = SK = authId`, then `UnmarshalMap` back into an
  `AuthCacheValue`. -/
  TryGetDurable (st : CacheState) (authId : String)
      (ddbReadErr : Option String) : Except String (Option AuthCacheValue) :=
    match ddbReadErr with
    | some e =>
      Except.error ("unable to retrieve cache value with id " ++ authId ++ ": " ++ e)
    | none =>
      match assocFind st.table authId with
      | none => Except.ok none
      | some entity => Except.ok (some ⟨entity.Permissions, entity.Expiration⟩)

/-- `AuthCache.TryPut` from `authCache.go` lines 67-93.

Writes the ephemeral tier first (`cacheMap[authId] = *value`), then formats
the expiration and puts the row `⟨authId, authId, permissions, expiration⟩`
into the store; `ddbWriteErr = some e` models a failing `PutItem` call, in
which case the durable tier is unchanged and the error is returned (the
ephemeral write has already happened). -/
def TryPut (st : CacheState) (authId : String) (value : AuthCacheValue)
    (ddbWriteErr : Option String) : CacheState × Option String :=
  let st1 : CacheState := { st with cacheMap := assocPut st.cacheMap authId value }
  let valueEntity : AuthCacheValueEntity :=
    { PK := authId
      SK := authId
      Permissions := value.Permissions
      Expiration := value.Expiration }
  match ddbWriteErr with
  | some e => (st1, some ("unable to store authId cache value: " ++ e))
  | none => ({ st1 with table := assocPut st1.table authId valueEntity }, none)

/-! ## User-type permission resolution (`getUserPermissions`) -/

/-- Freshness test used at `main.go` lines 279 and 336:
`authCache != nil && authCache.Expiration.After(time.Now())`. -/
def cacheFresh : Option AuthCacheValue → Nat → Bool
  | none, _ => false
  | some v, now => decide (now < v.Expiration)

/-- Permissions of an optional cache entry (only read under `cacheFresh`). -/
def permsOf : Option AuthCacheValue → List String
  | none => []
  | some v => v.Permissions

/-- The initial cache consultation of `getUserPermissions` (line 278):
`authCache, _ := Authorizer.AuthCache.TryGet(principalId)` — note that the
error return of `TryGet` is discarded, leaving `nil` on a store failure. -/
def firstLookupOf (st : CacheState) (principalId : String) (now : Nat)
    (ddbReadErr : Option String) : Option AuthCacheValue :=
  match TryGet st now principalId ddbReadErr with
  | Except.ok v => v
  | Except.error _ => none

/-- `getUserPermissions` from `main.go` lines 275-350.

Inputs beyond the cache state and subject id:
* `now1`: the `time.Now()` of the first freshness check (line 279);
* `now2`: the `time.Now()` of the re-check after dispatch (line 336), which
  re-tests the same `authCache` local variable, not a fresh lookup;
* `nowPut`: the `time.Now()` used for the written expiration (line 330),
  `now + 1000*900*time.Millisecond`, i.e. `nowPut + 900000` ms = 15 minutes;
* `ddbReadErr`/`ddbWriteErr`: availability of the store for the read and for
  the goroutine's `TryPut`;
* `fetch`: the outcome of the dispatched upstream permissions fetch — on
  success, the list of `permission_name` fields decoded from the response.

The returned state reflects that the dispatched goroutine, when its fetch
succeeds, writes both tiers even if the caller returned early (the fetch is
never cancelled). -/
def getUserPermissions (st : CacheState) (principalId : String)
    (now1 now2 nowPut : Nat) (ddbReadErr ddbWriteErr : Option String)
    (fetch : Except String (List String)) :
    Except String String × CacheState :=
  let authCache := firstLookupOf st principalId now1 ddbReadErr
  if cacheFresh authCache now1 then
    (Except.ok (String.intercalate "," (permsOf authCache)), st)
  else
    let stAfter : CacheState :=
      match fetch with
      | Except.ok arr =>
        (TryPut st principalId ⟨arr, nowPut + 1000 * 900⟩ ddbWriteErr).1
      | Except.error _ => st
    if cacheFresh authCache now2 then
      (Except.ok (String.intercalate "," (permsOf authCache)), stAfter)
    else
      match fetch with
      | Except.ok arr => (Except.ok (String.intercalate "," arr), stAfter)
      | Except.error e => (Except.error e, stAfter)

/-- Follows the words of the spec (§4.3 step 5), for comparison with
`getUserPermissions` from the source: after dispatching the fetch, "re-check
cache freshness (repeat step 1/2) immediately after dispatch, before waiting
on the fetch" and, if a fresher entry is now visible, return it immediately.
`recheckLookup` is what that repeated step-1/2 lookup would observe at the
re-check instant `now2` (possibly an entry written by a concurrent
resolution). Only the returned permissions are described, not the cache
state. -/
def getUserPermissionsRecheckSpec (st : CacheState) (principalId : String)
    (now1 now2 : Nat) (ddbReadErr : Option String)
    (recheckLookup : Option AuthCacheValue)
    (fetch : Except String (List String)) : Except String String :=
  let authCache := firstLookupOf st principalId now1 ddbReadErr
  if cacheFresh authCache now1 then
    Except.ok (String.intercalate "," (permsOf authCache))
  else if cacheFresh recheckLookup now2 then
    Except.ok (String.intercalate "," (permsOf recheckLookup))
  else
    match fetch with
    | Except.ok arr => Except.ok (String.intercalate "," arr)
    | Except.error e => Except.error e

/-! ## Request handler (`Handler`) -/

/-- A value stored under a key of the decoded `jwt.MapClaims`
(`map[string]interface{}`), as discriminated by the type switches and type
assertions the handler performs: a JSON string, a list of strings (either
`[]string` or an all-string `[]interface{}`), a `[]interface{}` containing a
non-string element, or any other shape (number, boolean, object, null). -/
inductive ClaimVal where
  | str : String → ClaimVal
  | strList : List String → ClaimVal
  | listWithNonString : ClaimVal
  | other : ClaimVal
deriving DecidableEq

/-- The verified token the handler sees when `jwt.Parse` returns no error:
its claims map, its `Valid` flag, whether `decodedToken.Method` is
`*jwt.SigningMethodRSA`, and whether the header has an `"alg"` entry. -/
structure ParsedToken where
  Claims : List (String × ClaimVal)
  Valid : Bool
  MethodIsRSA : Bool
  HeaderHasAlg : Bool
deriving DecidableEq

/-- Outcome of `jwt.Parse(token, keyfunc)` as the handler's `errors.Is`
switch discriminates it: the three recognised error classes (with
`ErrTokenExpired` and `ErrTokenNotValidYet` sharing one branch), any other
error, or success. -/
inductive ParseOutcome where
  | failMalformed : ParseOutcome
  | failSigInvalid : ParseOutcome
  | failExpired : ParseOutcome
  | failOther : ParseOutcome
  | success : ParsedToken → ParseOutcome

/-- `jwt.MapClaims.GetAudience` (jwt/v5 `parseClaimsString("aud")`): a string
becomes a one-element list, a string list is taken as is, a `[]interface{}`
with a non-string element is an error, and a missing claim or any other shape
yields the empty list with no error. -/
def getAudienceClaims (claims : List (String × ClaimVal)) :
    Except Unit (List String) :=
  match assocFind claims "aud" with
  | some (ClaimVal.str v) => Except.ok [v]
  | some (ClaimVal.strList vs) => Except.ok vs
  | some ClaimVal.listWithNonString => Except.error ()
  | some ClaimVal.other => Except.ok []
  | none => Except.ok []

/-- `Handler` from `main.go` lines 175-273.

Oracles standing for the external collaborators:
* `jwtParse` — the outcome of `jwt.Parse` on the extracted token string
  (signature verification against the key set and temporal validation);
* `userPerms` — the outcome of `getUserPermissions(principalId)` as the
  handler's `select` over the result/error channels observes it (the
  goroutine sends exactly one of the two).

Every Go `return resp, nil` of the source is `GoResult.ok (resp, none)`: the
second component is the handler's Go `error` result, which the source always
returns as `nil`. The two `GoResult.crash` outcomes model the run-time panics
of the source: the out-of-range index inside `getToken`, and the unchecked
type assertion `tokenPayload["iss"].(string)` at line 224, which aborts when
the `iss` claim is absent or not a string. Conditionals are written with the
success branch first, so an `if !cond { deny } else ...` of the source appears
as `if cond then ... else deny`. -/
def Handler (config : AuthTokenConfig) (req : AuthorizerRequest)
    (jwtParse : String → ParseOutcome)
    (userPerms : String → Except String String) :
    GoResult (AuthorizerResponse × Option String) :=
  match getToken req with
  | GoResult.crash m => GoResult.crash m
  | GoResult.err _ =>
    GoResult.ok (getDenyResponse "" req.MethodArn "Unauthorized", none)
  | GoResult.ok token =>
    match jwtParse token with
    | ParseOutcome.failMalformed =>
      GoResult.ok (getDenyResponse "" req.MethodArn "Unauthorized: Malformed Token", none)
    | ParseOutcome.failSigInvalid =>
      GoResult.ok (getDenyResponse "" req.MethodArn "Unauthorized: Invalid Signature", none)
    | ParseOutcome.failExpired =>
      GoResult.ok (getDenyResponse "" req.MethodArn "Unauthorized: Expired Token", none)
    | ParseOutcome.failOther =>
      GoResult.ok (getDenyResponse "" req.MethodArn "Unauthorized: Unable to decode token", none)
    | ParseOutcome.success tok =>
      match getAudienceClaims tok.Claims with
      | Except.error _ =>
        GoResult.ok (getDenyResponse "" req.MethodArn "Unauthorized: Token missing 'aud' claim or claim is invalid", none)
      | Except.ok audClaims =>
        if audClaims.contains config.TokenAudience then
          if tok.Valid then
            if tok.MethodIsRSA then
              if tok.HeaderHasAlg then
                match assocFind tok.Claims "iss" with
                | some (ClaimVal.str issClaim) =>
                  if strContainsSub config.Issuer issClaim then
                    match assocFind tok.Claims "sub" with
                    | some (ClaimVal.str principalId) =>
                      match assocFind tok.Claims "scope" with
                      | some (ClaimVal.str scopes) =>
                        if strContainsSub "auth0" principalId then
                          -- user-type token: wait on getUserPermissions
                          match userPerms principalId with
                          | Except.ok permissions =>
                            GoResult.ok (getSuccessResponse principalId req.MethodArn
                              [("requesterId", principalId), ("permissions", permissions)], none)
                          | Except.error e =>
                            GoResult.ok (getDenyResponse principalId req.MethodArn e, none)
                        else
                          -- app-type token: scope split on " ", joined with ","
                          GoResult.ok (getSuccessResponse principalId req.MethodArn
                            [("requesterId", principalId),
                             ("permissions", String.intercalate "," (goSplitSpace scopes))], none)
                      | _ =>
                        GoResult.ok (getDenyResponse principalId req.MethodArn "Unauthorized: Token missing required 'roles' claim", none)
                    | _ =>
                      GoResult.ok (getDenyResponse "" req.MethodArn "Unauthorized: Token missing required 'sub' claim", none)
                  else
                    GoResult.ok (getDenyResponse "" req.MethodArn "Unauthorized: Token uses invalid 'iss' claim", none)
                | _ =>
                  GoResult.crash "interface conversion: iss claim is nil, not string"
              else
                GoResult.ok (getDenyResponse "" req.MethodArn "Unauthorized: Token missing required 'alg' claim", none)
            else
              GoResult.ok (getDenyResponse "" req.MethodArn "Unauthorized: Token uses invalid signing method", none)
          else
            GoResult.ok (getDenyResponse "" req.MethodArn "Unauthorized: Token failed validation", none)
        else
          GoResult.ok (getDenyResponse "" req.MethodArn "Unauthorized: Token 'aud' claim missing registered audience", none)

/-- The Go `error` component of a handler outcome (`nil` on the non-`ok`
constructors, which never reach a `return`). -/
def handlerGoError :
    GoResult (AuthorizerResponse × Option String) → Option String
  | GoResult.ok (_, e) => e
  | GoResult.err _ => none
  | GoResult.crash _ => none

/-- Follows the words of the spec (§4.3, C6): "permissions equal to the scope
claim split on whitespace" — splitting the scope claim at whitespace
characters, for comparison with `goSplitSpace` (the source splits at the
space character only). -/
def splitOnWhitespaceSpec (s : String) : List String :=
  splitOnWhitespaceSpecChars [] s.data
where
  /-- Worker: splits at each whitespace character, keeping empty fields. -/
  splitOnWhitespaceSpecChars (cur : List Char) : List Char → List String
    | [] => [String.mk cur.reverse]
    | c :: rest =>
      if c.isWhitespace then
        String.mk cur.reverse :: splitOnWhitespaceSpecChars [] rest
      else splitOnWhitespaceSpecChars (c :: cur) rest

/-- Is the optional claim value a JSON string? The comma-ok type assertions
`tokenPayload["sub"].(string)` and `tokenPayload["scope"].(string)` succeed
exactly on this shape — for any string, including the empty one. -/
def isStrClaim : Option ClaimVal → Bool
  | some (ClaimVal.str _) => true
  | _ => false

/-! ## Helper lemmas -/

theorem cacheFresh_mono (c : Option AuthCacheValue) (n1 n2 : Nat)
    (h : n1 ≤ n2) (hf : cacheFresh c n1 = false) : cacheFresh c n2 = false := by
  cases c with
  | none => rfl
  | some v =>
    simp only [cacheFresh, decide_eq_false_iff_not] at hf ⊢
    omega

theorem assocFind_put_self {α : Type} (m : List (String × α)) (k : String)
    (v : α) : assocFind (assocPut m k v) k = some v := by
  simp [assocFind, assocPut, List.find?]

theorem charsContain_nonempty_of_true (pat : List Char) (hp : pat ≠ [])
    (l : List Char) (h : charsContain pat l = true) : l ≠ [] := by
  intro hl
  subst hl
  simp only [charsContain, List.isEmpty_iff] at h
  exact hp h

theorem strContainsSub_pos_length (pat s : String) (hp : pat.data ≠ [])
    (h : strContainsSub pat s = true) : 0 < s.length := by
  have hd : s.data ≠ [] :=
    charsContain_nonempty_of_true pat.data hp s.data h
  cases s with
  | mk data =>
    cases data with
    | nil => exact absurd rfl hd
    | cons c rest => simp [String.length]

/-- Every terminating run of the handler is either a modelled panic, a Deny
built by `getDenyResponse` on the request's method ARN, or an Allow built by
`getSuccessResponse` with exactly the `requesterId` and `permissions` context
entries — and every normal return carries a `nil` Go error. -/
theorem handler_ok_shape (config : AuthTokenConfig) (req : AuthorizerRequest)
    (jwtParse : String → ParseOutcome)
    (userPerms : String → Except String String) :
    (∃ m, Handler config req jwtParse userPerms = GoResult.crash m) ∨
    (∃ p m, Handler config req jwtParse userPerms =
      GoResult.ok (getDenyResponse p req.MethodArn m, none)) ∨
    (∃ p s, Handler config req jwtParse userPerms =
      GoResult.ok (getSuccessResponse p req.MethodArn
        [("requesterId", p), ("permissions", s)], none)) := by
  unfold Handler
  repeat' split
  all_goals first
    | exact Or.inl ⟨_, rfl⟩
    | exact Or.inr (Or.inl ⟨_, _, rfl⟩)
    | exact Or.inr (Or.inr ⟨_, _, rfl⟩)

/-! ## Claim theorems -/

/-- Claim C1: the spec states that no step of the validation or resolution
path aborts fatally — in particular that a `Bearer ` header with empty
remainder and a verified token without a string `iss` claim degrade to Deny.
The code violates this intent at exactly the two cited places: the header
`"Bearer "` passes the unanchored regexp but `strings.Fields(...)[1]` is an
index-out-of-range panic, and a verified RSA token whose payload lacks an
`iss` string makes the unchecked assertion `tokenPayload["iss"].(string)`
panic. This theorem evaluates the embedded handler at both failing inputs
and shows the run ends in the modelled panic, not in a Deny decision. -/
theorem handler_panics_on_cited_inputs :
    Handler ⟨"", "https://iss.example/", "", "", "aud1", "", ""⟩
        ⟨"TOKEN", "Bearer ", "arn:m1"⟩ (fun _ => ParseOutcome.failOther)
        (fun _ => Except.ok "") =
      GoResult.crash "runtime error: index out of range" ∧
    Handler ⟨"", "https://iss.example/", "", "", "aud1", "", ""⟩
        ⟨"TOKEN", "Bearer x", "arn:m1"⟩
        (fun _ => ParseOutcome.success
          ⟨[("aud", ClaimVal.str "aud1"), ("sub", ClaimVal.str "auth0|u")],
            true, true, true⟩)
        (fun _ => Except.ok "") =
      GoResult.crash "interface conversion: iss claim is nil, not string" :=
  ⟨by decide, by decide⟩

/-- Claim C2, counterexample: the claim says the extractor fails on every
input without the exact `Bearer ` prefix and on success returns the whole
remainder after the prefix. On `"Bearer a b"` the code succeeds with the
second whitespace field `"a"`, not the remainder `"a b"`; and on
`"xBearer y"`, which does not start with the prefix, it succeeds with `"y"`
instead of failing (the regexp is unanchored). -/
theorem getToken_remainder_counterexample :
    getToken ⟨"TOKEN", "Bearer a b", "arn:m2"⟩ = GoResult.ok "a" ∧
    getToken ⟨"TOKEN", "xBearer y", "arn:m2"⟩ = GoResult.ok "y" ∧
    ("a" : String) ≠ "a b" :=
  ⟨by decide, by decide, by decide⟩

/-- Claim C2, amended: for a `TOKEN`-type request, the extractor fails with
an error exactly when the header does not contain `"Bearer "` (trailing
space included) as a substring; when it does, the extractor returns the
second whitespace-delimited field of the header if one exists, and panics
otherwise. -/
theorem getToken_characterization (req : AuthorizerRequest)
    (hType : req.EventType = "TOKEN") :
    (strContainsSub "Bearer " req.AuthorizationToken = false →
      ∃ msg, getToken req = GoResult.err msg) ∧
    (strContainsSub "Bearer " req.AuthorizationToken = true →
      match (goFields req.AuthorizationToken).get? 1 with
      | some t => getToken req = GoResult.ok t
      | none => getToken req = GoResult.crash "runtime error: index out of range") := by
  constructor
  · intro hc
    unfold getToken
    rw [if_neg (by simp [hType])]
    by_cases hlen : req.AuthorizationToken.length ≤ 0
    · rw [if_pos hlen]
      exact ⟨_, rfl⟩
    · rw [if_neg hlen, if_pos (by simp [hc])]
      exact ⟨_, rfl⟩
  · intro hc
    unfold getToken
    rw [if_neg (by simp [hType])]
    have hpos : 0 < req.AuthorizationToken.length :=
      strContainsSub_pos_length "Bearer " req.AuthorizationToken (by decide) hc
    rw [if_neg (by omega), if_neg (by simp [hc])]
    cases hg : (goFields req.AuthorizationToken).get? 1 <;> simp [hg]

/-- Claim C2, witness: the amended characterization at the concrete request
`Bearer abc`, whose second field is `abc`. -/
theorem getToken_characterization_witness :
    (strContainsSub "Bearer " "Bearer abc" = false →
      ∃ msg, getToken ⟨"TOKEN", "Bearer abc", "arn:w2"⟩ = GoResult.err msg) ∧
    (strContainsSub "Bearer " "Bearer abc" = true →
      match (goFields "Bearer abc").get? 1 with
      | some t => getToken ⟨"TOKEN", "Bearer abc", "arn:w2"⟩ = GoResult.ok t
      | none => getToken ⟨"TOKEN", "Bearer abc", "arn:w2"⟩ =
          GoResult.crash "runtime error: index out of range") :=
  getToken_characterization ⟨"TOKEN", "Bearer abc", "arn:w2"⟩ rfl

/-- Claim C8: writing a cache value for a subject with `TryPut` and reading
it back with `TryGet` before its expiration reproduces the same permission
set — both within the same warm process (ephemeral hit) and through the
durable tier alone (empty ephemeral map, as after a cold start). -/
theorem cache_roundtrip (st : CacheState) (authId : String)
    (v : AuthCacheValue) (now : Nat) (h : now < v.Expiration) :
    TryGet (TryPut st authId v none).1 now authId none =
      Except.ok (some v) ∧
    TryGet ⟨[], (TryPut st authId v none).1.table⟩ now authId none =
      Except.ok (some v) := by
  constructor
  · show TryGet ⟨assocPut st.cacheMap authId v, _⟩ now authId none = _
    unfold TryGet
    rw [assocFind_put_self]
    simp [h]
  · show TryGet ⟨[], assocPut st.table authId
      ⟨authId, authId, v.Permissions, v.Expiration⟩⟩ now authId none = _
    unfold TryGet
    show TryGet.TryGetDurable _ _ _ = _
    unfold TryGet.TryGetDurable
    rw [assocFind_put_self]

/-- Claim C8, witness: the round trip at a concrete subject and value. -/
theorem cache_roundtrip_witness :
    TryGet (TryPut ⟨[], []⟩ "auth0|w8" ⟨["read"], 10⟩ none).1 5 "auth0|w8" none =
      Except.ok (some ⟨["read"], 10⟩) ∧
    TryGet ⟨[], (TryPut ⟨[], []⟩ "auth0|w8" ⟨["read"], 10⟩ none).1.table⟩ 5
        "auth0|w8" none =
      Except.ok (some ⟨["read"], 10⟩) :=
  cache_roundtrip ⟨[], []⟩ "auth0|w8" ⟨["read"], 10⟩ 5 (by decide)

/-- Claim C10: whenever the handler returns (rather than panicking), its Go
`error` result is `nil`: every `return` statement of `Handler` in the source
is literally `return <response>, nil`, so all outcomes are communicated
through the response structure alone. -/
theorem handler_go_error_always_nil (config : AuthTokenConfig)
    (req : AuthorizerRequest) (jwtParse : String → ParseOutcome)
    (userPerms : String → Except String String) :
    handlerGoError (Handler config req jwtParse userPerms) = none := by
  rcases handler_ok_shape config req jwtParse userPerms with
    ⟨m, hm⟩ | ⟨p, m, hm⟩ | ⟨p, s, hm⟩ <;> rw [hm] <;> rfl

/-- Claim C3, counterexample: the claim says the resolver repeats the cache
lookup after dispatching the fetch and returns a fresh concurrently-written
entry without waiting. In the scenario below the repeated lookup would see a
fresh entry (`recheckLookup`) while the fetch fails: the spec-described
behaviour returns the entry, but the source re-tests only the stale local
`authCache` variable from before the dispatch, so it waits for the fetch and
returns its error — the concurrent write is invisible to it. -/
theorem recheck_counterexample :
    getUserPermissionsRecheckSpec ⟨[], []⟩ "auth0|u1" 0 1 none
        (some ⟨["read:items"], 900000⟩)
        (Except.error "error retrieving user permissions: 503") =
      Except.ok "read:items" ∧
    (getUserPermissions ⟨[], []⟩ "auth0|u1" 0 1 0 none none
        (Except.error "error retrieving user permissions: 503")).1 =
      Except.error "error retrieving user permissions: 503" ∧
    (Except.ok "read:items" : Except String String) ≠
      Except.error "error retrieving user permissions: 503" :=
  ⟨rfl, rfl, fun h => Except.noConfusion h⟩

/-- Claim C3, amended: after dispatching the fetch, the resolver re-checks
only the expiration of the entry obtained by the initial lookup against a
later clock reading — it never repeats the lookup. Since that entry was
already absent or stale, the re-check can never succeed when the clock does
not go backwards, so the resolution outcome is always determined by the
dispatched fetch. -/
theorem resolver_waits_on_fetch_after_stale_lookup (st : CacheState)
    (principalId : String) (now1 now2 nowPut : Nat)
    (ddbReadErr ddbWriteErr : Option String)
    (fetch : Except String (List String)) (hmono : now1 ≤ now2)
    (hstale : cacheFresh (firstLookupOf st principalId now1 ddbReadErr) now1 = false) :
    (getUserPermissions st principalId now1 now2 nowPut ddbReadErr ddbWriteErr fetch).1 =
      match fetch with
      | Except.ok arr => Except.ok (String.intercalate "," arr)
      | Except.error e => Except.error e := by
  have h2 : cacheFresh (firstLookupOf st principalId now1 ddbReadErr) now2 = false :=
    cacheFresh_mono _ _ _ hmono hstale
  unfold getUserPermissions
  simp only [hstale, h2, Bool.false_eq_true, if_false]
  cases fetch <;> rfl

/-- Claim C3, witness: the amended statement at a concrete stale-cache run
with a successful fetch. -/
theorem resolver_waits_witness :
    (getUserPermissions ⟨[], []⟩ "auth0|w3" 0 0 0 none none
        (Except.ok ["p"])).1 =
      match (Except.ok ["p"] : Except String (List String)) with
      | Except.ok arr => Except.ok (String.intercalate "," arr)
      | Except.error e => Except.error e :=
  resolver_waits_on_fetch_after_stale_lookup ⟨[], []⟩ "auth0|w3" 0 0 0 none none
    (Except.ok ["p"]) (Nat.le_refl 0) rfl

/-- Claim C4, counterexample: the claim says a failing durable-store read
makes the resolution end in a Deny carrying the store error. In the source
the error of `TryGet` is discarded (`authCache, _ := ...TryGet(...)`), so
with the store read failing and the upstream fetch succeeding the resolution
succeeds and the handler returns an Allow decision — no Deny and no store
error text anywhere in the outcome. -/
theorem durable_read_failure_counterexample :
    (getUserPermissions ⟨[], []⟩ "auth0|u2" 0 0 0 (some "dynamodb unavailable")
        none (Except.ok ["read:all"])).1 = Except.ok "read:all" ∧
    Handler ⟨"", "https://iss.example/", "", "", "aud1", "", ""⟩
        ⟨"TOKEN", "Bearer x", "arn:m4"⟩
        (fun _ => ParseOutcome.success
          ⟨[("aud", ClaimVal.str "aud1"),
            ("iss", ClaimVal.str "https://iss.example/"),
            ("sub", ClaimVal.str "auth0|u2"), ("scope", ClaimVal.str "s")],
            true, true, true⟩)
        (fun pid => (getUserPermissions ⟨[], []⟩ pid 0 0 0
            (some "dynamodb unavailable") none (Except.ok ["read:all"])).1) =
      GoResult.ok (getSuccessResponse "auth0|u2" "arn:m4"
        [("requesterId", "auth0|u2"), ("permissions", "read:all")], none) ∧
    (getSuccessResponse "auth0|u2" "arn:m4"
        [("requesterId", "auth0|u2"),
         ("permissions", "read:all")]).PolicyDocument.Statement.map
      IAMPolicyStatement.Effect = ["Allow"] ∧
    ("Allow" : String) ≠ "Deny" :=
  ⟨rfl, by decide, by decide, by decide⟩

/-- Claim C4, amended: a durable-store read failure during user-type
resolution is discarded and treated as a cache miss: whenever the ephemeral
tier has no fresh entry (so the failing store read is actually reached), the
resolution proceeds exactly as with an empty cache — its outcome is the
outcome of the upstream fetch, and a Deny results only when that fetch
fails, carrying the upstream error rather than the store error. -/
theorem durable_read_failure_treated_as_miss (st : CacheState)
    (principalId : String) (now1 now2 nowPut : Nat) (e : String)
    (ddbWriteErr : Option String) (fetch : Except String (List String))
    (heph : cacheFresh (assocFind st.cacheMap principalId) now1 = false) :
    (getUserPermissions st principalId now1 now2 nowPut (some e) ddbWriteErr fetch).1 =
      match fetch with
      | Except.ok arr => Except.ok (String.intercalate "," arr)
      | Except.error er => Except.error er := by
  have hfl : firstLookupOf st principalId now1 (some e) = none := by
    unfold firstLookupOf TryGet
    cases hf : assocFind st.cacheMap principalId with
    | none => rfl
    | some v =>
      rw [hf] at heph
      simp only [cacheFresh, decide_eq_false_iff_not] at heph
      simp [heph]
      rfl
  unfold getUserPermissions
  rw [hfl]
  cases fetch <;> rfl

/-- Claim C4, witness: the amended statement at a concrete failing store
read with a failing upstream fetch, yielding the upstream error. -/
theorem durable_read_failure_witness :
    (getUserPermissions ⟨[], []⟩ "auth0|w4" 0 0 0 (some "dynamodb unavailable")
        none (Except.error "error retrieving user permissions: 503")).1 =
      match (Except.error "error retrieving user permissions: 503" :
          Except String (List String)) with
      | Except.ok arr => Except.ok (String.intercalate "," arr)
      | Except.error er => Except.error er :=
  durable_read_failure_treated_as_miss ⟨[], []⟩ "auth0|w4" 0 0 0
    "dynamodb unavailable" none
    (Except.error "error retrieving user permissions: 503") rfl

/-- Claim C5, counterexample: the claim says an empty-string `sub` claim and
an empty-string scope claim are rejected. The comma-ok type assertions in the
source succeed on any string, so a token with `sub = ""` (and a scope) is
allowed through — the subject even classifies as app-type because the empty
string does not contain `auth0` — and a token with `scope = ""` is likewise
allowed with an empty permissions entry, instead of the missing-subject and
missing-scope denials the claim requires. -/
theorem empty_claims_accepted_counterexample :
    Handler ⟨"", "https://iss.example/", "", "", "aud1", "", ""⟩
        ⟨"TOKEN", "Bearer x", "arn:m5"⟩
        (fun _ => ParseOutcome.success
          ⟨[("aud", ClaimVal.str "aud1"),
            ("iss", ClaimVal.str "https://iss.example/"),
            ("sub", ClaimVal.str ""), ("scope", ClaimVal.str "openid")],
            true, true, true⟩)
        (fun _ => Except.ok "") =
      GoResult.ok (getSuccessResponse "" "arn:m5"
        [("requesterId", ""), ("permissions", "openid")], none) ∧
    GoResult.ok (getSuccessResponse "" "arn:m5"
        [("requesterId", ""), ("permissions", "openid")],
        (none : Option String)) ≠
      GoResult.ok (getDenyResponse "" "arn:m5"
        "Unauthorized: Token missing required 'sub' claim", none) ∧
    Handler ⟨"", "https://iss.example/", "", "", "aud1", "", ""⟩
        ⟨"TOKEN", "Bearer x", "arn:m5"⟩
        (fun _ => ParseOutcome.success
          ⟨[("aud", ClaimVal.str "aud1"),
            ("iss", ClaimVal.str "https://iss.example/"),
            ("sub", ClaimVal.str "app123"), ("scope", ClaimVal.str "")],
            true, true, true⟩)
        (fun _ => Except.ok "") =
      GoResult.ok (getSuccessResponse "app123" "arn:m5"
        [("requesterId", "app123"), ("permissions", "")], none) ∧
    GoResult.ok (getSuccessResponse "app123" "arn:m5"
        [("requesterId", "app123"), ("permissions", "")],
        (none : Option String)) ≠
      GoResult.ok (getDenyResponse "app123" "arn:m5"
        "Unauthorized: Token missing required 'roles' claim", none) :=
  ⟨by decide, by decide, by decide, by decide⟩

/-- Claim C5, amended: for a token that reaches the subject step (extraction,
parse, audience, validity, signing method, `alg` header and issuer checks all
passed), the handler fails with the missing-subject denial exactly when the
`sub` claim is absent or not a string, and — once `sub` is a string — with
the missing-scope denial (whose message names a `roles` claim) exactly when
the scope claim is absent or not a string; empty strings are accepted by
both checks. -/
theorem missing_claim_denials (config : AuthTokenConfig)
    (req : AuthorizerRequest) (jwtParse : String → ParseOutcome)
    (userPerms : String → Except String String) (token : String)
    (tok : ParsedToken) (audClaims : List String) (issClaim : String)
    (hTok : getToken req = GoResult.ok token)
    (hParse : jwtParse token = ParseOutcome.success tok)
    (hAud : getAudienceClaims tok.Claims = Except.ok audClaims)
    (hAudMem : audClaims.contains config.TokenAudience = true)
    (hValid : tok.Valid = true) (hRSA : tok.MethodIsRSA = true)
    (hAlg : tok.HeaderHasAlg = true)
    (hIss : assocFind tok.Claims "iss" = some (ClaimVal.str issClaim))
    (hIssOk : strContainsSub config.Issuer issClaim = true) :
    (isStrClaim (assocFind tok.Claims "sub") = false →
      Handler config req jwtParse userPerms =
        GoResult.ok (getDenyResponse "" req.MethodArn
          "Unauthorized: Token missing required 'sub' claim", none)) ∧
    (∀ principalId,
      assocFind tok.Claims "sub" = some (ClaimVal.str principalId) →
      isStrClaim (assocFind tok.Claims "scope") = false →
      Handler config req jwtParse userPerms =
        GoResult.ok (getDenyResponse principalId req.MethodArn
          "Unauthorized: Token missing required 'roles' claim", none)) := by
  unfold Handler
  simp only [hTok, hParse, hAud, hIss, hAudMem, hValid, hRSA, hAlg, hIssOk,
    if_true]
  constructor
  · intro hsub
    cases hs : assocFind tok.Claims "sub" with
    | none => rfl
    | some cv =>
      rw [hs] at hsub
      cases cv with
      | str s => simp [isStrClaim] at hsub
      | strList l => rfl
      | listWithNonString => rfl
      | other => rfl
  · intro principalId hs hscope
    rw [hs]
    cases hc : assocFind tok.Claims "scope" with
    | none => rfl
    | some cv =>
      rw [hc] at hscope
      cases cv with
      | str s => simp [isStrClaim] at hscope
      | strList l => rfl
      | listWithNonString => rfl
      | other => rfl

/-- Claim C5, witness: the amended statement at a concrete verified token
whose claims map has neither `sub` nor `scope`. -/
theorem missing_claim_denials_witness :
    (isStrClaim (assocFind
        [("aud", ClaimVal.str "aud1"),
         ("iss", ClaimVal.str "https://iss.example/")] "sub") = false →
      Handler ⟨"", "https://iss.example/", "", "", "aud1", "", ""⟩
          ⟨"TOKEN", "Bearer x", "arn:w5"⟩
          (fun _ => ParseOutcome.success
            ⟨[("aud", ClaimVal.str "aud1"),
              ("iss", ClaimVal.str "https://iss.example/")], true, true, true⟩)
          (fun _ => Except.ok "") =
        GoResult.ok (getDenyResponse "" "arn:w5"
          "Unauthorized: Token missing required 'sub' claim", none)) ∧
    (∀ principalId,
      assocFind [("aud", ClaimVal.str "aud1"),
        ("iss", ClaimVal.str "https://iss.example/")] "sub" =
          some (ClaimVal.str principalId) →
      isStrClaim (assocFind [("aud", ClaimVal.str "aud1"),
        ("iss", ClaimVal.str "https://iss.example/")] "scope") = false →
      Handler ⟨"", "https://iss.example/", "", "", "aud1", "", ""⟩
          ⟨"TOKEN", "Bearer x", "arn:w5"⟩
          (fun _ => ParseOutcome.success
            ⟨[("aud", ClaimVal.str "aud1"),
              ("iss", ClaimVal.str "https://iss.example/")], true, true, true⟩)
          (fun _ => Except.ok "") =
        GoResult.ok (getDenyResponse principalId "arn:w5"
          "Unauthorized: Token missing required 'roles' claim", none)) :=
  missing_claim_denials ⟨"", "https://iss.example/", "", "", "aud1", "", ""⟩
    ⟨"TOKEN", "Bearer x", "arn:w5"⟩
    (fun _ => ParseOutcome.success
      ⟨[("aud", ClaimVal.str "aud1"),
        ("iss", ClaimVal.str "https://iss.example/")], true, true, true⟩)
    (fun _ => Except.ok "") "x"
    ⟨[("aud", ClaimVal.str "aud1"),
      ("iss", ClaimVal.str "https://iss.example/")], true, true, true⟩
    ["aud1"] "https://iss.example/" (by decide) rfl rfl (by decide)
    rfl rfl rfl (by decide) (by decide)

/-- Claim C6, counterexample: the claim says an app-type Allow carries the
scope claim split on whitespace. The source splits with
`strings.Split(scopes, " ")`, i.e. on the space character only: for the
scope string `"read:items\twrite:items"` (a tab inside) the handler emits the
single permission `"read:items\twrite:items"`, while splitting on whitespace
as the claim words it (the spec-following `splitOnWhitespaceSpec`) would
give the two permissions `read:items,write:items`. -/
theorem scope_split_whitespace_counterexample :
    Handler ⟨"", "https://iss.example/", "", "", "aud1", "", ""⟩
        ⟨"TOKEN", "Bearer x", "arn:m6"⟩
        (fun _ => ParseOutcome.success
          ⟨[("aud", ClaimVal.str "aud1"),
            ("iss", ClaimVal.str "https://iss.example/"),
            ("sub", ClaimVal.str "app123"),
            ("scope", ClaimVal.str "read:items\twrite:items")],
            true, true, true⟩)
        (fun _ => Except.ok "") =
      GoResult.ok (getSuccessResponse "app123" "arn:m6"
        [("requesterId", "app123"),
         ("permissions", "read:items\twrite:items")], none) ∧
    String.intercalate "," (splitOnWhitespaceSpec "read:items\twrite:items") =
      "read:items,write:items" ∧
    ("read:items\twrite:items" : String) ≠ "read:items,write:items" :=
  ⟨by decide, by decide, by decide⟩

/-- Claim C6, amended: for every verified token that passes all claim gates
and whose subject does not contain `auth0` (app-type), the handler returns
Allow with the permissions context entry equal to the scope claim split on
the space character (not on general whitespace) and joined with commas, and
the outcome is independent of the user-resolution oracle — no cache lookup,
cache write, or upstream call takes part in the app branch. -/
theorem app_token_allow_with_space_split (config : AuthTokenConfig)
    (req : AuthorizerRequest) (jwtParse : String → ParseOutcome)
    (userPerms : String → Except String String) (token : String)
    (tok : ParsedToken) (audClaims : List String) (issClaim : String)
    (principalId scopes : String)
    (hTok : getToken req = GoResult.ok token)
    (hParse : jwtParse token = ParseOutcome.success tok)
    (hAud : getAudienceClaims tok.Claims = Except.ok audClaims)
    (hAudMem : audClaims.contains config.TokenAudience = true)
    (hValid : tok.Valid = true) (hRSA : tok.MethodIsRSA = true)
    (hAlg : tok.HeaderHasAlg = true)
    (hIss : assocFind tok.Claims "iss" = some (ClaimVal.str issClaim))
    (hIssOk : strContainsSub config.Issuer issClaim = true)
    (hSub : assocFind tok.Claims "sub" = some (ClaimVal.str principalId))
    (hApp : strContainsSub "auth0" principalId = false)
    (hScope : assocFind tok.Claims "scope" = some (ClaimVal.str scopes)) :
    Handler config req jwtParse userPerms =
      GoResult.ok (getSuccessResponse principalId req.MethodArn
        [("requesterId", principalId),
         ("permissions", String.intercalate "," (goSplitSpace scopes))],
        none) ∧
    ∀ userPerms2 : String → Except String String,
      Handler config req jwtParse userPerms2 =
        Handler config req jwtParse userPerms := by
  have hmain : ∀ u : String → Except String String,
      Handler config req jwtParse u =
        GoResult.ok (getSuccessResponse principalId req.MethodArn
          [("requesterId", principalId),
           ("permissions", String.intercalate "," (goSplitSpace scopes))],
          none) := by
    intro u
    unfold Handler
    simp only [hTok, hParse, hAud, hIss, hSub, hScope, hAudMem, hValid, hRSA,
      hAlg, hIssOk, hApp, if_true, Bool.false_eq_true, if_false]
  exact ⟨hmain userPerms, fun u2 => (hmain u2).trans (hmain userPerms).symm⟩

/-- Claim C6, witness: the amended statement at a concrete app-type token
with scope `read:items write:items`. -/
theorem app_token_allow_witness :
    Handler ⟨"", "https://iss.example/", "", "", "aud1", "", ""⟩
        ⟨"TOKEN", "Bearer x", "arn:w6"⟩
        (fun _ => ParseOutcome.success
          ⟨[("aud", ClaimVal.str "aud1"),
            ("iss", ClaimVal.str "https://iss.example/"),
            ("sub", ClaimVal.str "app123"),
            ("scope", ClaimVal.str "read:items write:items")],
            true, true, true⟩)
        (fun _ => Except.ok "") =
      GoResult.ok (getSuccessResponse "app123" "arn:w6"
        [("requesterId", "app123"),
         ("permissions",
          String.intercalate ","
            (goSplitSpace "read:items write:items"))], none) ∧
    ∀ userPerms2 : String → Except String String,
      Handler ⟨"", "https://iss.example/", "", "", "aud1", "", ""⟩
          ⟨"TOKEN", "Bearer x", "arn:w6"⟩
          (fun _ => ParseOutcome.success
            ⟨[("aud", ClaimVal.str "aud1"),
              ("iss", ClaimVal.str "https://iss.example/"),
              ("sub", ClaimVal.str "app123"),
              ("scope", ClaimVal.str "read:items write:items")],
              true, true, true⟩)
          userPerms2 =
        Handler ⟨"", "https://iss.example/", "", "", "aud1", "", ""⟩
          ⟨"TOKEN", "Bearer x", "arn:w6"⟩
          (fun _ => ParseOutcome.success
            ⟨[("aud", ClaimVal.str "aud1"),
              ("iss", ClaimVal.str "https://iss.example/"),
              ("sub", ClaimVal.str "app123"),
              ("scope", ClaimVal.str "read:items write:items")],
              true, true, true⟩)
          (fun _ => Except.ok "") :=
  app_token_allow_with_space_split
    ⟨"", "https://iss.example/", "", "", "aud1", "", ""⟩
    ⟨"TOKEN", "Bearer x", "arn:w6"⟩
    (fun _ => ParseOutcome.success
      ⟨[("aud", ClaimVal.str "aud1"),
        ("iss", ClaimVal.str "https://iss.example/"),
        ("sub", ClaimVal.str "app123"),
        ("scope", ClaimVal.str "read:items write:items")], true, true, true⟩)
    (fun _ => Except.ok "") "x"
    ⟨[("aud", ClaimVal.str "aud1"),
      ("iss", ClaimVal.str "https://iss.example/"),
      ("sub", ClaimVal.str "app123"),
      ("scope", ClaimVal.str "read:items write:items")], true, true, true⟩
    ["aud1"] "https://iss.example/" "app123" "read:items write:items"
    (by decide) rfl rfl (by decide) rfl rfl rfl (by decide) (by decide)
    (by decide) (by decide) (by decide)

/-- Claim C7: a user-type resolution with no usable cache entry and a
successful upstream fetch (with the durable store accepting the write)
returns the fetched permissions comma-joined, writes the fetched set to both
tiers with expiration `nowPut + 1000*900` ms — exactly 15 minutes after the
`time.Now()` of the write — and a second resolution for the same subject at
any instant before that expiration is served from the ephemeral tier: it
returns the same permissions, leaves the state unchanged, and its outcome
does not depend on the fetch, the store availability, or the later clock
readings (zero additional upstream calls). -/
theorem user_fetch_populates_both_tiers (st : CacheState)
    (principalId : String) (now1 now2 nowPut now3 : Nat)
    (ddbReadErr : Option String) (arr : List String) (hmono : now1 ≤ now2)
    (hstale : cacheFresh (firstLookupOf st principalId now1 ddbReadErr) now1 = false)
    (hsoon : now3 < nowPut + 1000 * 900) :
    (getUserPermissions st principalId now1 now2 nowPut ddbReadErr none
        (Except.ok arr)).1 = Except.ok (String.intercalate "," arr) ∧
    assocFind (getUserPermissions st principalId now1 now2 nowPut ddbReadErr
        none (Except.ok arr)).2.cacheMap principalId =
      some ⟨arr, nowPut + 1000 * 900⟩ ∧
    assocFind (getUserPermissions st principalId now1 now2 nowPut ddbReadErr
        none (Except.ok arr)).2.table principalId =
      some ⟨principalId, principalId, arr, nowPut + 1000 * 900⟩ ∧
    ∀ (rErr2 wErr2 : Option String) (n2 n3 : Nat)
      (fetch2 : Except String (List String)),
      getUserPermissions
          (getUserPermissions st principalId now1 now2 nowPut ddbReadErr none
            (Except.ok arr)).2 principalId now3 n2 n3 rErr2 wErr2 fetch2 =
        (Except.ok (String.intercalate "," arr),
         (getUserPermissions st principalId now1 now2 nowPut ddbReadErr none
           (Except.ok arr)).2) := by
  have h2 : cacheFresh (firstLookupOf st principalId now1 ddbReadErr) now2 = false :=
    cacheFresh_mono _ _ _ hmono hstale
  have hrun : getUserPermissions st principalId now1 now2 nowPut ddbReadErr
      none (Except.ok arr) =
      (Except.ok (String.intercalate "," arr),
       ⟨assocPut st.cacheMap principalId ⟨arr, nowPut + 1000 * 900⟩,
        assocPut st.table principalId
          ⟨principalId, principalId, arr, nowPut + 1000 * 900⟩⟩) := by
    unfold getUserPermissions
    simp only [hstale, h2, Bool.false_eq_true, if_false]
    rfl
  refine ⟨by rw [hrun], by rw [hrun]; exact assocFind_put_self _ _ _,
    by rw [hrun]; exact assocFind_put_self _ _ _, ?_⟩
  intro rErr2 wErr2 n2 n3 fetch2
  rw [hrun]
  have hfl2 : firstLookupOf
      ⟨assocPut st.cacheMap principalId ⟨arr, nowPut + 1000 * 900⟩,
       assocPut st.table principalId
         ⟨principalId, principalId, arr, nowPut + 1000 * 900⟩⟩
      principalId now3 rErr2 = some ⟨arr, nowPut + 1000 * 900⟩ := by
    unfold firstLookupOf TryGet
    rw [assocFind_put_self]
    simp [hsoon]
  unfold getUserPermissions
  rw [hfl2]
  simp [cacheFresh, permsOf, hsoon]

/-- Claim C7, witness: the cache-fill statement at a concrete subject with
fetched permissions `p1, p2`; the second resolution is exercised with a
failing fetch oracle and a failing store, and still succeeds from the
ephemeral tier with the state unchanged. -/
theorem user_fetch_witness :
    (getUserPermissions ⟨[], []⟩ "auth0|w7" 0 0 0 none none
        (Except.ok ["p1", "p2"])).1 = Except.ok "p1,p2" ∧
    getUserPermissions
        (getUserPermissions ⟨[], []⟩ "auth0|w7" 0 0 0 none none
          (Except.ok ["p1", "p2"])).2 "auth0|w7" 100 0 0 (some "down")
        (some "down") (Except.error "upstream down") =
      (Except.ok "p1,p2",
       (getUserPermissions ⟨[], []⟩ "auth0|w7" 0 0 0 none none
         (Except.ok ["p1", "p2"])).2) :=
  ⟨(user_fetch_populates_both_tiers ⟨[], []⟩ "auth0|w7" 0 0 0 100 none
      ["p1", "p2"] (Nat.le_refl 0) rfl (by decide)).1,
   (user_fetch_populates_both_tiers ⟨[], []⟩ "auth0|w7" 0 0 0 100 none
      ["p1", "p2"] (Nat.le_refl 0) rfl (by decide)).2.2.2 (some "down")
     (some "down") 0 0 (Except.error "upstream down")⟩

/-- Claim C9: every response a terminating handler run returns is built by
one of the two decision builders: a Deny whose policy document has version
`2012-10-17` and exactly one statement `execute-api:Invoke / Deny / [method
ARN]` and whose context carries the `ErrorMessage` entry, or an Allow with
the same single-statement document (effect `Allow`) whose context carries
exactly the `requesterId` and comma-joined `permissions` entries. -/
theorem response_shape (config : AuthTokenConfig) (req : AuthorizerRequest)
    (jwtParse : String → ParseOutcome)
    (userPerms : String → Except String String)
    (resp : AuthorizerResponse) (goErr : Option String)
    (h : Handler config req jwtParse userPerms = GoResult.ok (resp, goErr)) :
    (∃ p m, resp = getDenyResponse p req.MethodArn m ∧
      resp.PolicyDocument =
        ⟨"2012-10-17", [⟨["execute-api:Invoke"], "Deny", [req.MethodArn]⟩]⟩ ∧
      assocFind resp.Context "ErrorMessage" = some m) ∨
    (∃ p s, resp = getSuccessResponse p req.MethodArn
        [("requesterId", p), ("permissions", s)] ∧
      resp.PolicyDocument =
        ⟨"2012-10-17", [⟨["execute-api:Invoke"], "Allow", [req.MethodArn]⟩]⟩ ∧
      assocFind resp.Context "requesterId" = some p ∧
      assocFind resp.Context "permissions" = some s) := by
  rcases handler_ok_shape config req jwtParse userPerms with
    ⟨m, hm⟩ | ⟨p, m, hm⟩ | ⟨p, s, hm⟩
  · rw [h] at hm
    cases hm
  · rw [h] at hm
    simp only [GoResult.ok.injEq, Prod.mk.injEq] at hm
    obtain ⟨h1, -⟩ := hm
    subst h1
    exact Or.inl ⟨p, m, rfl, rfl, by simp [getDenyResponse, assocFind]⟩
  · rw [h] at hm
    simp only [GoResult.ok.injEq, Prod.mk.injEq] at hm
    obtain ⟨h1, -⟩ := hm
    subst h1
    refine Or.inr ⟨p, s, rfl, rfl, ?_, ?_⟩
    · simp [getSuccessResponse, assocFind]
    · simp [getSuccessResponse, assocFind]

/-- Claim C9, witness: the shape statement at a concrete run ending in the
generic `Unauthorized` denial. -/
theorem response_shape_witness :
    (∃ p m, getDenyResponse "" "arn:w9" "Unauthorized" =
        getDenyResponse p "arn:w9" m ∧
      (getDenyResponse "" "arn:w9" "Unauthorized").PolicyDocument =
        ⟨"2012-10-17", [⟨["execute-api:Invoke"], "Deny", ["arn:w9"]⟩]⟩ ∧
      assocFind (getDenyResponse "" "arn:w9" "Unauthorized").Context
        "ErrorMessage" = some m) ∨
    (∃ p s, getDenyResponse "" "arn:w9" "Unauthorized" =
        getSuccessResponse p "arn:w9"
          [("requesterId", p), ("permissions", s)] ∧
      (getDenyResponse "" "arn:w9" "Unauthorized").PolicyDocument =
        ⟨"2012-10-17", [⟨["execute-api:Invoke"], "Allow", ["arn:w9"]⟩]⟩ ∧
      assocFind (getDenyResponse "" "arn:w9" "Unauthorized").Context
        "requesterId" = some p ∧
      assocFind (getDenyResponse "" "arn:w9" "Unauthorized").Context
        "permissions" = some s) :=
  response_shape ⟨"", "", "", "", "", "", ""⟩ ⟨"X", "t", "arn:w9"⟩
    (fun _ => ParseOutcome.failOther) (fun _ => Except.ok "")
    (getDenyResponse "" "arn:w9" "Unauthorized") none rfl
